import Mathlib

/-!
Shallow embedding of the MCP auth reference server
(`mcp-auth-test-server/main.py` and `mcp-auth-test-server/database.py`).

Python `datetime` values are modelled as natural numbers (seconds); SQLAlchemy
tables are modelled as lists of rows kept in insertion order, so `.first()` on
a filtered query is `List.find?` over the list.  Optional/nullable Python
values are `Option String`, and Python truthiness on strings (`if state:`) is
the `strTruthy` predicate below (false on `None` and on the empty string).
-/

namespace MCPAuth

/-- Python truthiness of an optional string: `None` and `""` are falsy. -/
def strTruthy : Option String → Bool
  | none => false
  | some s => !(s == "")

/-- Python f-string interpolation of an optional value: `None` renders as "None". -/
def pyStr : Option String → String
  | none => "None"
  | some s => s

/-- Row of the `auth_codes` table (database.py, class AuthCode). -/
structure AuthCode where
  code : String
  client_id : Option String
  redirect_uri : Option String
  createdAt : Nat
  expiresAt : Nat
  used : Bool
  code_challenge : Option String
  code_challenge_method : Option String
  resource : Option String
deriving Repr, DecidableEq

/-- Row of the `access_tokens` table (database.py, class AccessToken). -/
structure AccessToken where
  token : String
  client_id : String
  createdAt : Nat
  expiresAt : Nat
  resource : Option String
deriving Repr, DecidableEq

/-- Row of the `clients` table (database.py, class Client). -/
structure Client where
  client_id : String
  client_secret : String
  client_name : String
  redirect_uri : String
  createdAt : Nat
deriving Repr, DecidableEq

/-- The SQLite database state: the three tables, rows in insertion order. -/
structure DB where
  clients : List Client
  authCodes : List AuthCode
  accessTokens : List AccessToken
deriving Repr, DecidableEq

/-!
SHA-256 (FIPS 180-4) over byte lists, as computed by Python's
`hashlib.sha256`, and URL-safe base64 without padding, as computed by
`base64.urlsafe_b64encode(...).rstrip(b'=')`.  Machine words are naturals
reduced modulo 2^32.
-/

/-- Reduce a natural to a 32-bit word. -/
def w32 (n : Nat) : Nat := n % 4294967296

/-- Right rotation of a 32-bit word by `n` bits. -/
def rotr (n x : Nat) : Nat := x / 2 ^ n + x % 2 ^ n * 2 ^ (32 - n)

/-- SHA-256 Ch function. -/
def shaCh (e f g : Nat) : Nat := (e &&& f) ^^^ ((4294967295 - e) &&& g)

/-- SHA-256 Maj function. -/
def shaMaj (a b c : Nat) : Nat := (a &&& b) ^^^ (a &&& c) ^^^ (b &&& c)

/-- SHA-256 big sigma 0. -/
def bsig0 (x : Nat) : Nat := rotr 2 x ^^^ rotr 13 x ^^^ rotr 22 x

/-- SHA-256 big sigma 1. -/
def bsig1 (x : Nat) : Nat := rotr 6 x ^^^ rotr 11 x ^^^ rotr 25 x

/-- SHA-256 small sigma 0. -/
def ssig0 (x : Nat) : Nat := rotr 7 x ^^^ rotr 18 x ^^^ x / 2 ^ 3

/-- SHA-256 small sigma 1. -/
def ssig1 (x : Nat) : Nat := rotr 17 x ^^^ rotr 19 x ^^^ x / 2 ^ 10

/-- The 64 SHA-256 round constants. -/
def K256 : List Nat :=
  [1116352408, 1899447441, 3049323471, 3921009573, 961987163, 1508970993,
   2453635748, 2870763221, 3624381080, 310598401, 607225278, 1426881987,
   1925078388, 2162078206, 2614888103, 3248222580, 3835390401, 4022224774,
   264347078, 604807628, 770255983, 1249150122, 1555081692, 1996064986,
   2554220882, 2821834349, 2952996808, 3210313671, 3336571891, 3584528711,
   113926993, 338241895, 666307205, 773529912, 1294757372, 1396182291,
   1695183700, 1986661051, 2177026350, 2456956037, 2730485921, 2820302411,
   3259730800, 3345764771, 3516065817, 3600352804, 4094571909, 275423344,
   430227734, 506948616, 659060556, 883997877, 958139571, 1322822218,
   1537002063, 1747873779, 1955562222, 2024104815, 2227730452, 2361852424,
   2428436474, 2756734187, 3204031479, 3329325298]

/-- SHA-256 working state: eight 32-bit words. -/
structure Hs where
  a : Nat
  b : Nat
  c : Nat
  d : Nat
  e : Nat
  f : Nat
  g : Nat
  h : Nat
deriving Repr, DecidableEq

/-- SHA-256 initial hash value. -/
def shaIV : Hs :=
  ⟨1779033703, 3144134277, 1013904242, 2773480762,
   1359893119, 2600822924, 528734635, 1541459225⟩

/-- Group a byte list into big-endian 32-bit words (fuel-driven so it reduces by `rfl`). -/
def bytesToWordsAux : Nat → List Nat → List Nat
  | _, [] => []
  | 0, _ => []
  | fuel + 1, l =>
      (l.getD 0 0 * 16777216 + l.getD 1 0 * 65536 + l.getD 2 0 * 256 + l.getD 3 0) ::
        bytesToWordsAux fuel (l.drop 4)

/-- Group a byte list into big-endian 32-bit words. -/
def bytesToWords (l : List Nat) : List Nat := bytesToWordsAux l.length l

/-- Extend the reversed message schedule by `fuel` further words. -/
def extendSchedule : Nat → List Nat → List Nat
  | 0, rw => rw
  | fuel + 1, rw =>
      extendSchedule fuel
        (w32 (ssig1 (rw.getD 1 0) + rw.getD 6 0 + ssig0 (rw.getD 14 0) + rw.getD 15 0) :: rw)

/-- The 64-word message schedule of one 64-byte block. -/
def schedule (block : List Nat) : List Nat :=
  (extendSchedule 48 (bytesToWords block).reverse).reverse

/-- One SHA-256 round, consuming a (round constant, schedule word) pair. -/
def roundStep (s : Hs) (kw : Nat × Nat) : Hs :=
  let t1 := w32 (s.h + bsig1 s.e + shaCh s.e s.f s.g + kw.1 + kw.2)
  let t2 := w32 (bsig0 s.a + shaMaj s.a s.b s.c)
  ⟨w32 (t1 + t2), s.a, s.b, s.c, w32 (s.d + t1), s.e, s.f, s.g⟩

/-- SHA-256 compression of one 64-byte block into the chaining state. -/
def compress (s : Hs) (block : List Nat) : Hs :=
  let r := (K256.zip (schedule block)).foldl roundStep s
  ⟨w32 (s.a + r.a), w32 (s.b + r.b), w32 (s.c + r.c), w32 (s.d + r.d),
   w32 (s.e + r.e), w32 (s.f + r.f), w32 (s.g + r.g), w32 (s.h + r.h)⟩

/-- Big-endian 8-byte encoding of a natural (the SHA-256 length field). -/
def lenBytes (n : Nat) : List Nat :=
  [n / 2 ^ 56 % 256, n / 2 ^ 48 % 256, n / 2 ^ 40 % 256, n / 2 ^ 32 % 256,
   n / 2 ^ 24 % 256, n / 2 ^ 16 % 256, n / 2 ^ 8 % 256, n % 256]

/-- SHA-256 padding: append 0x80, zeros to 56 mod 64, then the 64-bit bit length. -/
def shaPad (msg : List Nat) : List Nat :=
  let r := msg.length % 64
  let zeros := if r < 56 then 55 - r else 119 - r
  msg ++ 128 :: List.replicate zeros 0 ++ lenBytes (msg.length * 8)

/-- Split a list into 64-element chunks (fuel-driven so it reduces by `rfl`). -/
def chunksAux : Nat → List Nat → List (List Nat)
  | _, [] => []
  | 0, _ => []
  | fuel + 1, l => l.take 64 :: chunksAux fuel (l.drop 64)

/-- Split a list into 64-element chunks. -/
def chunks64 (l : List Nat) : List (List Nat) := chunksAux l.length l

/-- The eight final SHA-256 hash words of a byte message. -/
def sha256Words (msg : List Nat) : Hs :=
  (chunks64 (shaPad msg)).foldl compress shaIV

/-- Big-endian byte expansion of one 32-bit hash word. -/
def wordBytes (w : Nat) : List Nat :=
  [w / 16777216 % 256, w / 65536 % 256, w / 256 % 256, w % 256]

/-- SHA-256 digest of a byte message, as a list of 32 bytes. -/
def sha256 (msg : List Nat) : List Nat :=
  let H := sha256Words msg
  wordBytes H.a ++ wordBytes H.b ++ wordBytes H.c ++ wordBytes H.d ++
    wordBytes H.e ++ wordBytes H.f ++ wordBytes H.g ++ wordBytes H.h

/-- UTF-8 bytes of a code point, as Python's `str.encode('utf-8')` produces them. -/
def utf8Bytes (c : Nat) : List Nat :=
  if c < 128 then [c]
  else if c < 2048 then [192 + c / 64, 128 + c % 64]
  else if c < 65536 then [224 + c / 4096, 128 + c / 64 % 64, 128 + c % 64]
  else [240 + c / 262144, 128 + c / 4096 % 64, 128 + c / 64 % 64, 128 + c % 64]

/-- UTF-8 encoding of a string as a byte list. -/
def strBytes (s : String) : List Nat :=
  (s.data.map (fun c => utf8Bytes c.toNat)).flatten

/-- The URL-safe base64 alphabet (RFC 4648 section 5). -/
def b64Alphabet : List Char :=
  "ABCDEFGHIJKLMNOPQRSTUVWXYZabcdefghijklmnopqrstuvwxyz0123456789-_".toList

/-- Character for a 6-bit group. -/
def sixToChar (n : Nat) : Char := b64Alphabet.getD n 'A'

/-- Inverse of `sixToChar` on code points, by alphabet-range arithmetic. -/
def charToSix (c : Char) : Nat :=
  let n := c.toNat
  if 65 ≤ n ∧ n ≤ 90 then n - 65
  else if 97 ≤ n ∧ n ≤ 122 then n - 71
  else if 48 ≤ n ∧ n ≤ 57 then n + 4
  else if n = 45 then 62
  else if n = 95 then 63
  else 0

/-- Base64 six-bit groups of a byte list, unpadded (final group of 1 byte gives
2 sextets, of 2 bytes gives 3 sextets), matching `urlsafe_b64encode` with the
`=` padding stripped. -/
def b64Sextets : List Nat → List Nat
  | [] => []
  | [a] => [a / 4, a % 4 * 16]
  | [a, b] => [a / 4, a % 4 * 16 + b / 16, b % 16 * 4]
  | a :: b :: c :: rest =>
      a / 4 :: (a % 4 * 16 + b / 16) :: (b % 16 * 4 + c / 64) :: c % 64 :: b64Sextets rest

/-- URL-safe base64 encoding, without padding, of a byte list. -/
def b64urlNoPad (bytes : List Nat) : String :=
  ⟨(b64Sextets bytes).map sixToChar⟩

/-- The S256 PKCE challenge of a verifier:
`base64.urlsafe_b64encode(hashlib.sha256(v.encode('utf-8')).digest()).rstrip(b'=')`. -/
def s256_challenge (v : String) : String := b64urlNoPad (sha256 (strBytes v))

/-- main.py `validate_pkce`: compare a verifier against a stored challenge under
the stored method (`None` possible, hence `Option String`). -/
def validate_pkce (code_verifier code_challenge : String) (code_challenge_method : Option String) : Bool :=
  if code_challenge_method == some "plain" then code_verifier == code_challenge
  else if code_challenge_method == some "S256" then s256_challenge code_verifier == code_challenge
  else false

/-!
The endpoint handlers of main.py.  Each is a pure function from the request
data, the current clock value, the randomness the handler draws
(`secrets.token_urlsafe`), and the database state, to a response and the new
database state.
-/

/-- Response of the `/token` endpoint: a JSON token document or a JSON error
with an HTTP status. -/
inductive TokenResult where
  | ok (access_token : String) (token_type : String) (resource : Option String)
  | err (status : Nat) (error : String) (error_description : Option String)
deriving Repr, DecidableEq

/-- The `/token` lookup (main.py lines 154-158): the first `auth_codes` row
with this code that is unused and unexpired (`expires_at > utcnow()`). -/
def findValidAuthCode (codes : List AuthCode) (code : String) (now : Nat) : Option AuthCode :=
  codes.find? (fun ac => ac.code == code && ac.used == false && decide (now < ac.expiresAt))

/-- The `/token` success path (main.py lines 175-189): mark the row with this
code used, insert a fresh access token (expiring in 1 hour) carrying the
code's resource, and answer with the token document. -/
def tokenSuccess (client_id : String) (now : Nat) (freshToken : String) (ac : AuthCode) (db : DB) :
    TokenResult × DB :=
  (.ok freshToken "bearer" (if strTruthy ac.resource then ac.resource else none),
   { db with
      authCodes := db.authCodes.map (fun x => if x.code == ac.code then { x with used := true } else x),
      accessTokens := db.accessTokens ++
        [{ token := freshToken, client_id := client_id, createdAt := now,
           expiresAt := now + 3600, resource := ac.resource }] })

/-- The `/token` validations and write (main.py lines 160-189), taking the
result of the row lookup as an argument: this is the post-SELECT half of the
handler, applied to whatever row snapshot the SELECT returned. -/
def tokenExchange (redirect_uri client_id : String) (code_verifier : Option String)
    (now : Nat) (freshToken : String) (found : Option AuthCode) (db : DB) : TokenResult × DB :=
  match found with
  | none => (.err 400 "invalid_grant" none, db)
  | some ac =>
    if ac.redirect_uri != some redirect_uri || ac.client_id != some client_id then
      (.err 400 "invalid_request" none, db)
    else if strTruthy ac.code_challenge then
      if !(strTruthy code_verifier) then
        (.err 400 "invalid_request" (some "code_verifier required"), db)
      else if !(validate_pkce (code_verifier.getD "") (ac.code_challenge.getD "")
          ac.code_challenge_method) then
        (.err 400 "invalid_grant" (some "code_verifier validation failed"), db)
      else tokenSuccess client_id now freshToken ac db
    else tokenSuccess client_id now freshToken ac db

/-- main.py `token` (lines 140-189): POST /token. -/
def token (grant_type code redirect_uri client_id : String) (code_verifier : Option String)
    (now : Nat) (freshToken : String) (db : DB) : TokenResult × DB :=
  if grant_type != "authorization_code" then
    (.err 400 "unsupported_grant_type" none, db)
  else
    tokenExchange redirect_uri client_id code_verifier now freshToken
      (findValidAuthCode db.authCodes code now) db

/-- Response of the `/authorize` endpoint: a 302 redirect or the rendered
consent template (with its template context). -/
inductive AuthorizeResult where
  | redirect (url : String)
  | consent (client_name : String)
      (resource response_type client_id redirect_uri state code_challenge code_challenge_method :
        Option String)
deriving Repr, DecidableEq

/-- The `state` echo appended to every `/authorize` redirect:
`(f"&state=\x7bstate\x7d" if state else "")`. -/
def stateSuffix (state : Option String) : String :=
  if strTruthy state then "&state=" ++ pyStr state else ""

/-- main.py `authorize` (lines 67-135): GET/POST /authorize.  `isPost` is the
request method, `action` the consent form's `action` field, `freshCode` the
value `secrets.token_urlsafe(16)` returns. -/
def authorize (isPost : Bool)
    (response_type client_id redirect_uri state code_challenge code_challenge_method resource :
      Option String)
    (action : Option String) (now : Nat) (freshCode : String) (db : DB) : AuthorizeResult × DB :=
  if response_type != some "code" then
    (.redirect (pyStr redirect_uri ++ "?error=unsupported_response_type" ++ stateSuffix state), db)
  else
    match db.clients.find? (fun c => some c.client_id == client_id) with
    | none =>
      (.redirect (pyStr redirect_uri ++ "?error=invalid_client" ++ stateSuffix state), db)
    | some client =>
      if !isPost then
        (.consent client.client_name resource response_type client_id redirect_uri state
          code_challenge code_challenge_method, db)
      else if action == some "deny" then
        (.redirect (pyStr redirect_uri ++ "?error=access_denied" ++ stateSuffix state), db)
      else
        let ccm := if strTruthy code_challenge then
            (if strTruthy code_challenge_method then code_challenge_method else some "plain")
          else code_challenge_method
        if strTruthy code_challenge && !(ccm == some "S256" || ccm == some "plain") then
          (.redirect (pyStr redirect_uri ++
            "?error=invalid_request&error_description=invalid_code_challenge_method" ++
            stateSuffix state), db)
        else if strTruthy code_challenge && ccm == some "S256" &&
            ((code_challenge.getD "").length < 43 || (code_challenge.getD "").length > 128) then
          (.redirect (pyStr redirect_uri ++
            "?error=invalid_request&error_description=invalid_code_challenge" ++
            stateSuffix state), db)
        else
          (.redirect (pyStr redirect_uri ++ "?code=" ++ freshCode ++ stateSuffix state),
           { db with authCodes := db.authCodes ++
              [{ code := freshCode, client_id := client_id, redirect_uri := redirect_uri,
                 createdAt := now, expiresAt := now + 600, used := false,
                 code_challenge := code_challenge, code_challenge_method := ccm,
                 resource := resource }] })

/-- Response of GET /resource: the protected payload or a 401 with its
`WWW-Authenticate` header value. -/
inductive ResourceResult where
  | ok (message : String) (client_id : String)
  | unauthorized (detail : String) (wwwAuthenticate : String)
deriving Repr, DecidableEq

/-- Python's `str.startswith`, character-based (kernel-reducible form). -/
def pyStartsWith (s pre : String) : Bool := pre.data.isPrefixOf s.data

/-- Python's `s[n:]` character slicing (kernel-reducible form). -/
def pyDrop (s : String) (n : Nat) : String := ⟨s.data.drop n⟩

/-- main.py `protected_resource` (lines 226-260): GET /resource with an
optional `Authorization` header. -/
def protected_resource (auth : Option String) (now : Nat) (baseUrl : String) (db : DB) :
    ResourceResult :=
  if !(strTruthy auth) then
    .unauthorized "Authorization required"
      ("Bearer realm=\"mcp\", resource_server_metadata_url=\"" ++ baseUrl ++
        "/.well-known/oauth-protected-resource\"")
  else if !(pyStartsWith (pyStr auth) "Bearer ") then
    .unauthorized "Invalid authorization format" "Bearer realm=\"mcp\""
  else
    match db.accessTokens.find?
        (fun tk => tk.token == pyDrop (pyStr auth) 7 && decide (now < tk.expiresAt)) with
    | none => .unauthorized "Invalid or expired token" "Bearer realm=\"mcp\""
    | some tk => .ok "You have accessed a protected resource!" tk.client_id

/-- Response of POST /register: the RFC 7591 registration document or a JSON
error with an HTTP status. -/
inductive RegisterResult where
  | ok (client_id client_secret client_name : String) (client_id_issued_at : Nat)
      (redirect_uris grant_types response_types : List String) (scope : String)
      (token_endpoint_auth_method : String)
  | err (status : Nat) (error : String) (error_description : String)
deriving Repr, DecidableEq

/-- main.py `register_client` (lines 265-340): POST /register.  The `Option`
arguments are the request body fields (absent keys fall back to the
`request.get` defaults); `freshNameSuffix`, `freshIdSuffix`, `freshSecret` are
the values drawn from `secrets`. -/
def register_client (client_name : Option String) (redirect_uris : Option (List String))
    (grant_types : Option (List String)) (response_types : Option (List String))
    (scope : Option String) (freshNameSuffix freshIdSuffix freshSecret : String) (now : Nat)
    (db : DB) : RegisterResult × DB :=
  let name := client_name.getD ("Client-" ++ freshNameSuffix)
  let uris := redirect_uris.getD []
  let gts := grant_types.getD ["authorization_code"]
  let rts := response_types.getD ["code"]
  let sc := scope.getD "read write"
  if uris = [] then
    (.err 400 "invalid_redirect_uri" "At least one redirect_uri is required", db)
  else
    match gts.find? (fun g => !(["authorization_code"].contains g)) with
    | some g => (.err 400 "invalid_client_metadata" ("Unsupported grant_type: " ++ g), db)
    | none =>
      let cid := "client_" ++ freshIdSuffix
      (.ok cid freshSecret name now uris gts rts sc "client_secret_post",
       { db with clients := db.clients ++
          [{ client_id := cid, client_secret := freshSecret, client_name := name,
             redirect_uri := uris.headD "", createdAt := now }] })

/-- The PKCE acceptance condition of the `/token` handler (main.py lines
167-173), as a single predicate on the stored row and the supplied verifier:
either the row carries no (truthy) challenge, or a truthy verifier is supplied
and `validate_pkce` accepts it. -/
def pkceOk (ac : AuthCode) (cv : Option String) : Bool :=
  if strTruthy ac.code_challenge then
    strTruthy cv &&
      validate_pkce (cv.getD "") (ac.code_challenge.getD "") ac.code_challenge_method
  else true

/-- The effective `code_challenge_method` after the `/authorize` handler's
defaulting step (main.py lines 112-114): `plain` when a truthy challenge comes
with no truthy method. -/
def authCcm (cc ccm : Option String) : Option String :=
  if strTruthy cc then (if strTruthy ccm then ccm else some "plain") else ccm

/-- The PKCE-parameter acceptance condition of the `/authorize` handler
(main.py lines 112-118): with a truthy challenge, the effective method must be
`S256` or `plain`, and an `S256` challenge must be 43-128 characters long. -/
def authPkceOk (cc ccm : Option String) : Bool :=
  if strTruthy cc then
    (authCcm cc ccm == some "S256" || authCcm cc ccm == some "plain") &&
      !(authCcm cc ccm == some "S256" &&
        ((cc.getD "").length < 43 || (cc.getD "").length > 128))
  else true

/-- Fallback row for `List.getD` indexing into the `auth_codes` table; its
`used` flag is true so out-of-range reads are benign in monotonicity
statements. -/
def dummyAuthCode : AuthCode :=
  { code := "", client_id := none, redirect_uri := none, createdAt := 0, expiresAt := 0,
    used := true, code_challenge := none, code_challenge_method := none, resource := none }

/-- A store holding one registered client, used by concrete instantiations. -/
def dbReg : DB :=
  { clients :=
      [{ client_id := "cid1", client_secret := "sec", client_name := "Test",
         redirect_uri := "http://registered/cb", createdAt := 0 }],
    authCodes := [], accessTokens := [] }

/-- A store holding a single unused, unexpired authorization code, used by
concrete instantiations. -/
def dbOneCode : DB :=
  { clients := [],
    authCodes :=
      [{ code := "codeX", client_id := some "cl", redirect_uri := some "http://cb",
         createdAt := 0, expiresAt := 600, used := false, code_challenge := none,
         code_challenge_method := none, resource := none }],
    accessTokens := [] }

/-- The empty store. -/
def dbEmpty : DB := { clients := [], authCodes := [], accessTokens := [] }

/-!
Helper lemmas shared by the claim theorems.
-/

/-- The `/token` lookup finds exactly the stored row when that row is the only
one carrying its code and is unused and unexpired. -/
theorem find_valid_of_mem (codes : List AuthCode) (ac : AuthCode) (now : Nat)
    (hmem : ac ∈ codes) (huniq : ∀ ac' ∈ codes, ac'.code = ac.code → ac' = ac)
    (hused : ac.used = false) (hexp : now < ac.expiresAt) :
    findValidAuthCode codes ac.code now = some ac := by
  rcases hfind : findValidAuthCode codes ac.code now with _ | x
  · exact absurd (by simp [hused, hexp]) (List.find?_eq_none.mp hfind ac hmem)
  · have hx := List.find?_some hfind
    have hxmem := List.mem_of_find?_eq_some hfind
    simp only [Bool.and_eq_true, beq_iff_eq, decide_eq_true_eq] at hx
    exact congrArg some (huniq x hxmem hx.1.1)

/-- On a valid row with matching bindings and passing PKCE, the `/token`
handler takes its success path. -/
theorem token_success_of_valid (code ru rc : String) (cv : Option String) (now : Nat)
    (ft : String) (db : DB) (ac : AuthCode)
    (hfind : findValidAuthCode db.authCodes code now = some ac)
    (hr : ac.redirect_uri = some ru) (hc : ac.client_id = some rc)
    (hp : pkceOk ac cv = true) :
    token "authorization_code" code ru rc cv now ft db = tokenSuccess rc now ft ac db := by
  unfold token tokenExchange
  rw [hfind]
  unfold pkceOk at hp
  by_cases hch : strTruthy ac.code_challenge
  · simp only [hch, if_true, Bool.and_eq_true] at hp
    simp [hr, hc, hch, hp.1, hp.2]
  · simp [hr, hc, hch]

/-- C4: for every stored, unused, unexpired code, a POST /token whose
`redirect_uri` or `client_id` differs from the values recorded at issuance
returns 400 `invalid_request`, regardless of code validity otherwise. -/
theorem c4_binding_integrity (ru rc : String) (cv : Option String) (now : Nat) (ft : String)
    (db : DB) (ac : AuthCode) (hmem : ac ∈ db.authCodes)
    (huniq : ∀ ac' ∈ db.authCodes, ac'.code = ac.code → ac' = ac)
    (hused : ac.used = false) (hexp : now < ac.expiresAt)
    (hmismatch : ac.redirect_uri ≠ some ru ∨ ac.client_id ≠ some rc) :
    (token "authorization_code" ac.code ru rc cv now ft db).1 =
      TokenResult.err 400 "invalid_request" none := by
  unfold token tokenExchange
  rw [find_valid_of_mem db.authCodes ac now hmem huniq hused hexp]
  have hcond : (ac.redirect_uri != some ru || ac.client_id != some rc) = true := by
    rcases hmismatch with h | h <;> simp [h]
  simp [hcond]

/-- C4 witness: a concrete one-row store and a request with wrong
`redirect_uri` is answered with 400 `invalid_request`. -/
theorem c4_binding_integrity_witness :
    (token "authorization_code" "codeX" "http://evil" "cl" none 0 "tok" dbOneCode).1 =
      TokenResult.err 400 "invalid_request" none :=
  c4_binding_integrity "http://evil" "cl" none 0 "tok" dbOneCode
    (dbOneCode.authCodes.headD dummyAuthCode) (by decide) (by decide) (by decide) (by decide)
    (by decide)

/-- C6: a code presented to POST /token at or after its `expires_at` is always
answered with `invalid_grant`, and a bearer token presented to GET /resource
at or after its `expires_at` is always answered 401, even when every other
parameter matches. -/
theorem c6_expiry :
    (∀ (c ru rc : String) (cv : Option String) (now : Nat) (ft : String) (db : DB),
      (∀ ac ∈ db.authCodes, ac.code = c → ac.expiresAt ≤ now) →
      (token "authorization_code" c ru rc cv now ft db).1 =
        TokenResult.err 400 "invalid_grant" none) ∧
    (∀ (auth : Option String) (now : Nat) (baseUrl : String) (db : DB),
      strTruthy auth = true → pyStartsWith (pyStr auth) "Bearer " = true →
      (∀ tk ∈ db.accessTokens, tk.token = pyDrop (pyStr auth) 7 → tk.expiresAt ≤ now) →
      protected_resource auth now baseUrl db =
        ResourceResult.unauthorized "Invalid or expired token" "Bearer realm=\"mcp\"") := by
  constructor
  · intro c ru rc cv now ft db hexp
    have hnone : findValidAuthCode db.authCodes c now = none := by
      rw [findValidAuthCode, List.find?_eq_none]
      intro ac hac
      by_cases hcode : ac.code = c
      · have := hexp ac hac hcode
        simp [hcode]
        omega
      · simp [hcode]
    unfold token tokenExchange
    rw [hnone]
    simp
  · intro auth now baseUrl db htr hpre hexp
    have hnone : db.accessTokens.find?
        (fun tk => tk.token == pyDrop (pyStr auth) 7 && decide (now < tk.expiresAt)) = none := by
      rw [List.find?_eq_none]
      intro tk htk
      by_cases hcode : tk.token = pyDrop (pyStr auth) 7
      · have := hexp tk htk hcode
        simp [hcode]
        omega
      · simp [hcode]
    unfold protected_resource
    rw [hnone]
    simp [htr, hpre]

/-- C6 witness: at time 600 the code of `dbOneCode` (expiring at 600) is
rejected with `invalid_grant`, and an exactly-expired bearer token is rejected
401 with the guard's header. -/
theorem c6_expiry_witness :
    (token "authorization_code" "codeX" "http://cb" "cl" none 600 "tok" dbOneCode).1 =
      TokenResult.err 400 "invalid_grant" none ∧
    protected_resource (some "Bearer t1") 3600 "http://b"
        { clients := [], authCodes := [],
          accessTokens :=
            [{ token := "t1", client_id := "cl", createdAt := 0,
               expiresAt := 3600, resource := none }] } =
      ResourceResult.unauthorized "Invalid or expired token" "Bearer realm=\"mcp\"" :=
  ⟨c6_expiry.1 "codeX" "http://cb" "cl" none 600 "tok" dbOneCode (by decide),
   c6_expiry.2 (some "Bearer t1") 3600 "http://b"
     { clients := [], authCodes := [],
       accessTokens :=
         [{ token := "t1", client_id := "cl", createdAt := 0,
            expiresAt := 3600, resource := none }] }
     (by decide) (by decide) (by decide)⟩

/-- The `/token` handler either leaves the store untouched (every error path)
or performs the success write for the row snapshot it validated. -/
theorem tokenExchange_db_cases (ru rc : String) (cv : Option String) (now : Nat) (ft : String)
    (found : Option AuthCode) (db : DB) :
    (tokenExchange ru rc cv now ft found db).2 = db ∨
    ∃ ac, (tokenExchange ru rc cv now ft found db).2 = (tokenSuccess rc now ft ac db).2 := by
  cases found with
  | none => exact Or.inl rfl
  | some ac =>
    simp only [tokenExchange]
    by_cases h1 : (ac.redirect_uri != some ru || ac.client_id != some rc) = true
    · rw [if_pos h1]
      exact Or.inl rfl
    · rw [if_neg h1]
      by_cases h2 : strTruthy ac.code_challenge = true
      · rw [if_pos h2]
        by_cases h3 : strTruthy cv = true
        · rw [if_neg (by simp [h3])]
          by_cases h4 : validate_pkce (cv.getD "") (ac.code_challenge.getD "")
              ac.code_challenge_method = true
          · rw [if_neg (by simp [h4])]
            exact Or.inr ⟨ac, rfl⟩
          · rw [if_pos (by simp [Bool.not_eq_true] at h4 ⊢; exact h4)]
            exact Or.inl rfl
        · rw [if_pos (by simp [Bool.not_eq_true] at h3 ⊢; exact h3)]
          exact Or.inl rfl
      · rw [if_neg h2]
        exact Or.inr ⟨ac, rfl⟩

/-- C1: for every issued authorization code, the first POST /token redemption
with matching parameters succeeds; afterwards the code's row has `used = true`
and any second redemption with identical parameters is answered 400
`invalid_grant`; moreover no `/token` call ever resets a `used` flag from true
back to false. -/
theorem c1_single_use_codes :
    (∀ (ru rc : String) (cv : Option String) (now : Nat) (ft : String) (db : DB) (ac : AuthCode),
      ac ∈ db.authCodes →
      (∀ ac' ∈ db.authCodes, ac'.code = ac.code → ac' = ac) →
      ac.used = false → now < ac.expiresAt →
      ac.redirect_uri = some ru → ac.client_id = some rc → pkceOk ac cv = true →
      (token "authorization_code" ac.code ru rc cv now ft db).1 =
        TokenResult.ok ft "bearer" (if strTruthy ac.resource then ac.resource else none) ∧
      (∀ ac' ∈ (token "authorization_code" ac.code ru rc cv now ft db).2.authCodes,
        ac'.code = ac.code → ac'.used = true) ∧
      (∀ (next : Nat) (ft2 : String),
        (token "authorization_code" ac.code ru rc cv next ft2
          (token "authorization_code" ac.code ru rc cv now ft db).2).1 =
          TokenResult.err 400 "invalid_grant" none)) ∧
    (∀ (gt c ru rc : String) (cv : Option String) (now : Nat) (ft : String) (db : DB) (i : Nat),
      i < db.authCodes.length →
      (db.authCodes.getD i dummyAuthCode).used = true →
      ((token gt c ru rc cv now ft db).2.authCodes.getD i dummyAuthCode).used = true) := by
  constructor
  · intro ru rc cv now ft db ac hmem huniq hused hexp hr hc hp
    have hfind := find_valid_of_mem db.authCodes ac now hmem huniq hused hexp
    have hs := token_success_of_valid ac.code ru rc cv now ft db ac hfind hr hc hp
    refine ⟨by rw [hs]; rfl, ?_, ?_⟩
    · rw [hs]
      intro ac' hmem' hcode'
      simp only [tokenSuccess] at hmem'
      obtain ⟨x, hx, hxeq⟩ := List.mem_map.mp hmem'
      by_cases hxc : (x.code == ac.code) = true
      · rw [if_pos hxc] at hxeq
        rw [← hxeq]
      · rw [if_neg hxc] at hxeq
        subst hxeq
        exact absurd hcode' (by simpa using hxc)
    · intro next ft2
      rw [hs]
      have hnone : findValidAuthCode (tokenSuccess rc now ft ac db).2.authCodes ac.code next =
          none := by
        rw [findValidAuthCode, List.find?_eq_none]
        intro y hy
        simp only [tokenSuccess] at hy
        obtain ⟨x, hx, hxeq⟩ := List.mem_map.mp hy
        by_cases hxc : (x.code == ac.code) = true
        · rw [if_pos hxc] at hxeq
          subst hxeq
          simp
        · rw [if_neg hxc] at hxeq
          subst hxeq
          simp only [Bool.and_eq_true]
          intro hcontra
          exact absurd hcontra.1.1 hxc
      unfold token tokenExchange
      rw [hnone]
      simp
  · intro gt c ru rc cv now ft db i hi hu
    unfold token
    by_cases hgt : (gt != "authorization_code") = true
    · rw [if_pos hgt]
      exact hu
    · rw [if_neg hgt]
      rcases tokenExchange_db_cases ru rc cv now ft (findValidAuthCode db.authCodes c now) db with
        h | ⟨ac, h⟩
      · rw [h]
        exact hu
      · rw [h]
        simp only [tokenSuccess]
        rw [List.getD_eq_getElem?_getD, List.getElem?_map]
        rw [List.getD_eq_getElem?_getD] at hu
        rw [List.getElem?_eq_getElem hi] at hu ⊢
        simp only [Option.map_some', Option.getD_some] at hu ⊢
        by_cases hxc : (db.authCodes[i].code == ac.code) = true
        · rw [if_pos hxc]
        · rw [if_neg hxc]
          exact hu

/-- C1 witness: the concrete one-row store; first redemption yields the token
document, the row flips to used, and the identical second redemption is
answered `invalid_grant`. -/
theorem c1_single_use_codes_witness :
    (token "authorization_code" "codeX" "http://cb" "cl" none 0 "tok" dbOneCode).1 =
      TokenResult.ok "tok" "bearer" none ∧
    (∀ ac' ∈ (token "authorization_code" "codeX" "http://cb" "cl" none 0 "tok" dbOneCode).2.authCodes,
      ac'.code = "codeX" → ac'.used = true) ∧
    (token "authorization_code" "codeX" "http://cb" "cl" none 1 "tok2"
      (token "authorization_code" "codeX" "http://cb" "cl" none 0 "tok" dbOneCode).2).1 =
      TokenResult.err 400 "invalid_grant" none ∧
    ((token "authorization_code" "codeX" "http://cb" "cl" none 0 "tok" dbOneCode).2.authCodes.getD 0
      dummyAuthCode).used = true := by
  have h := c1_single_use_codes.1 "http://cb" "cl" none 0 "tok" dbOneCode
    (dbOneCode.authCodes.headD dummyAuthCode) (by decide) (by decide) (by decide) (by decide)
    (by decide) (by decide) (by decide)
  have hmono := c1_single_use_codes.2 "authorization_code" "codeX" "http://cb" "cl" none 1 "tok3"
    (token "authorization_code" "codeX" "http://cb" "cl" none 0 "tok" dbOneCode).2 0
    (by decide) (by decide)
  exact ⟨h.1, h.2.1, h.2.2 1 "tok2", by decide⟩

/-- C10: a POST /token that finds a valid code row but then fails — binding
mismatch, challenge present with no truthy verifier, or failed PKCE
verification — answers a 400 error, leaves the store unchanged (the `used`
flag stays false, no access-token row appears), and a subsequent redemption of
the same code with correct parameters on the resulting store still
succeeds. -/
theorem c10_failed_exchange_preserves_store (ru rc : String) (cv : Option String) (now : Nat)
    (ft : String) (db : DB) (ac : AuthCode) (hmem : ac ∈ db.authCodes)
    (huniq : ∀ ac' ∈ db.authCodes, ac'.code = ac.code → ac' = ac)
    (hused : ac.used = false) (hexp : now < ac.expiresAt)
    (hfail : (ac.redirect_uri ≠ some ru ∨ ac.client_id ≠ some rc) ∨
      (ac.redirect_uri = some ru ∧ ac.client_id = some rc ∧
        strTruthy ac.code_challenge = true ∧
        (strTruthy cv = false ∨
          validate_pkce (cv.getD "") (ac.code_challenge.getD "") ac.code_challenge_method =
            false))) :
    (token "authorization_code" ac.code ru rc cv now ft db).2 = db ∧
    (∃ e d, (token "authorization_code" ac.code ru rc cv now ft db).1 =
      TokenResult.err 400 e d) ∧
    (∀ (ru2 rc2 : String) (cv2 : Option String) (next : Nat) (ft2 : String),
      ac.redirect_uri = some ru2 → ac.client_id = some rc2 → pkceOk ac cv2 = true →
      next < ac.expiresAt →
      (token "authorization_code" ac.code ru2 rc2 cv2 next ft2
        (token "authorization_code" ac.code ru rc cv now ft db).2).1 =
        TokenResult.ok ft2 "bearer" (if strTruthy ac.resource then ac.resource else none)) := by
  have hfind := find_valid_of_mem db.authCodes ac now hmem huniq hused hexp
  have hstep : token "authorization_code" ac.code ru rc cv now ft db =
      (if (ac.redirect_uri != some ru || ac.client_id != some rc) = true then
        (TokenResult.err 400 "invalid_request" none, db)
      else if strTruthy ac.code_challenge = true then
        if (!strTruthy cv) = true then
          (TokenResult.err 400 "invalid_request" (some "code_verifier required"), db)
        else if (!validate_pkce (cv.getD "") (ac.code_challenge.getD "")
            ac.code_challenge_method) = true then
          (TokenResult.err 400 "invalid_grant" (some "code_verifier validation failed"), db)
        else tokenSuccess rc now ft ac db
      else tokenSuccess rc now ft ac db) := by
    unfold token tokenExchange
    rw [hfind]
    simp
  have hout : token "authorization_code" ac.code ru rc cv now ft db =
      (TokenResult.err 400 "invalid_request" none, db) ∨
      token "authorization_code" ac.code ru rc cv now ft db =
        (TokenResult.err 400 "invalid_request" (some "code_verifier required"), db) ∨
      token "authorization_code" ac.code ru rc cv now ft db =
        (TokenResult.err 400 "invalid_grant" (some "code_verifier validation failed"), db) := by
    rcases hfail with hmis | ⟨hru, hrc, hch, hver⟩
    · left
      rw [hstep, if_pos (by rcases hmis with h | h <;> simp [h])]
    · right
      have hm : (ac.redirect_uri != some ru || ac.client_id != some rc) = false := by
        simp [hru, hrc]
      rcases hver with hv | hv
      · left
        rw [hstep]
        simp [hm, hch, hv]
      · rcases hv2 : strTruthy cv with _ | _
        · left
          rw [hstep]
          simp [hm, hch, hv2]
        · right
          rw [hstep]
          simp [hm, hch, hv2, hv]
  have hdb : (token "authorization_code" ac.code ru rc cv now ft db).2 = db := by
    rcases hout with h | h | h <;> rw [h]
  refine ⟨hdb, ?_, ?_⟩
  · rcases hout with h | h | h <;> rw [h]
    · exact ⟨"invalid_request", none, rfl⟩
    · exact ⟨"invalid_request", some "code_verifier required", rfl⟩
    · exact ⟨"invalid_grant", some "code_verifier validation failed", rfl⟩
  · intro ru2 rc2 cv2 next ft2 hru2 hrc2 hp2 hnext
    rw [hdb]
    have hfind2 := find_valid_of_mem db.authCodes ac next hmem huniq hused hnext
    rw [token_success_of_valid ac.code ru2 rc2 cv2 next ft2 db ac hfind2 hru2 hrc2 hp2]
    rfl

/-- C10 witness: a PKCE-protected row redeemed without a verifier leaves the
store unchanged, answers 400, and the correct follow-up redemption (with the
right verifier) succeeds on the resulting store. -/
theorem c10_failed_exchange_preserves_store_witness :
    (token "authorization_code" "codeP" "http://cb" "cl" none 0 "tok"
      { clients := [], accessTokens := [],
        authCodes :=
          [{ code := "codeP", client_id := some "cl", redirect_uri := some "http://cb",
             createdAt := 0, expiresAt := 600, used := false, code_challenge := some "vrf",
             code_challenge_method := some "plain", resource := none }] }).2 =
      { clients := [], accessTokens := [],
        authCodes :=
          [{ code := "codeP", client_id := some "cl", redirect_uri := some "http://cb",
             createdAt := 0, expiresAt := 600, used := false, code_challenge := some "vrf",
             code_challenge_method := some "plain", resource := none }] } ∧
    (token "authorization_code" "codeP" "http://cb" "cl" (some "vrf") 1 "tok2"
      (token "authorization_code" "codeP" "http://cb" "cl" none 0 "tok"
        { clients := [], accessTokens := [],
          authCodes :=
            [{ code := "codeP", client_id := some "cl", redirect_uri := some "http://cb",
               createdAt := 0, expiresAt := 600, used := false, code_challenge := some "vrf",
               code_challenge_method := some "plain", resource := none }] }).2).1 =
      TokenResult.ok "tok2" "bearer" none := by
  have h := c10_failed_exchange_preserves_store "http://cb" "cl" none 0 "tok"
    { clients := [], accessTokens := [],
      authCodes :=
        [{ code := "codeP", client_id := some "cl", redirect_uri := some "http://cb",
           createdAt := 0, expiresAt := 600, used := false, code_challenge := some "vrf",
           code_challenge_method := some "plain", resource := none }] }
    { code := "codeP", client_id := some "cl", redirect_uri := some "http://cb",
      createdAt := 0, expiresAt := 600, used := false, code_challenge := some "vrf",
      code_challenge_method := some "plain", resource := none }
    (by decide) (by decide) (by decide) (by decide)
    (Or.inr ⟨rfl, rfl, by decide, Or.inl (by decide)⟩)
  exact ⟨h.1, h.2.2 "http://cb" "cl" (some "vrf") 1 "tok2" rfl rfl (by decide) (by decide)⟩

/-- C9: the `/authorize` handler never consults the registered client's
stored `redirect_uri`: for any existing client, `response_type=code`, and an
approve decision with acceptable PKCE parameters, the issued code row is bound
to — and the 302 redirect targets — exactly the `redirect_uri` string the
request supplied, whatever the client's registered value is; matching happens
only later at token redemption. -/
theorem c9_authorize_uses_supplied_uri (client_id ru state cc ccm resource action : Option String)
    (now : Nat) (fresh : String) (db : DB) (client : Client)
    (hfind : db.clients.find? (fun c => some c.client_id == client_id) = some client)
    (hact : action ≠ some "deny") (hpk : authPkceOk cc ccm = true) :
    authorize true (some "code") client_id ru state cc ccm resource action now fresh db =
      (AuthorizeResult.redirect (pyStr ru ++ "?code=" ++ fresh ++ stateSuffix state),
       { db with authCodes := db.authCodes ++
          [{ code := fresh, client_id := client_id, redirect_uri := ru, createdAt := now,
             expiresAt := now + 600, used := false, code_challenge := cc,
             code_challenge_method := authCcm cc ccm, resource := resource }] }) := by
  unfold authorize
  rw [if_neg (by simp)]
  rw [hfind]
  simp only []
  rw [if_neg (by simp : ¬((!true) = true))]
  rw [if_neg (by simp [hact])]
  unfold authPkceOk authCcm at hpk
  by_cases hch : strTruthy cc = true
  · rw [if_pos hch] at hpk
    rw [if_pos hch] at hpk
    simp only [hch, if_true]
    rcases h256 : ((if strTruthy ccm = true then ccm else some "plain") == some "S256") with _ | _
    · rw [h256] at hpk
      simp only [Bool.false_or, Bool.false_and, Bool.not_false, Bool.and_true] at hpk
      simp [authCcm, hch, h256, hpk]
    · rw [h256] at hpk
      simp only [Bool.true_or, Bool.true_and, Bool.and_eq_true, Bool.not_eq_eq_eq_not,
        Bool.not_true, Bool.or_eq_false_iff] at hpk
      simp [authCcm, hch, h256, hpk.1, hpk.2]
  · simp only [Bool.not_eq_true] at hch
    simp [authCcm, hch]

/-- C9 witness: in the concrete one-client store (registered redirect
http://registered/cb) an approve decision with a different supplied
redirect_uri issues a code bound to the supplied value and redirects there. -/
theorem c9_authorize_uses_supplied_uri_witness :
    "http://supplied/cb" ≠ (dbReg.clients.headD
      { client_id := "", client_secret := "", client_name := "", redirect_uri := "",
        createdAt := 0 }).redirect_uri ∧
    authorize true (some "code") (some "cid1") (some "http://supplied/cb") (some "xz") none none
        none (some "approve") 0 "FRESH" dbReg =
      (AuthorizeResult.redirect "http://supplied/cb?code=FRESH&state=xz",
       { dbReg with authCodes :=
          [{ code := "FRESH", client_id := some "cid1",
             redirect_uri := some "http://supplied/cb", createdAt := 0, expiresAt := 600,
             used := false, code_challenge := none, code_challenge_method := none,
             resource := none }] }) := by
  constructor
  · decide
  · have h := c9_authorize_uses_supplied_uri (some "cid1") (some "http://supplied/cb") (some "xz")
      none none none (some "approve") 0 "FRESH" dbReg
      (dbReg.clients.headD
        { client_id := "", client_secret := "", client_name := "", redirect_uri := "",
          createdAt := 0 })
      (by decide) (by decide) (by decide)
    rw [h]
    rfl

/-- C8 counterexample: a caller who supplies the (empty) `state` parameter
gets redirects carrying no `state` query parameter at all: with `state=""` the
deny redirect is exactly `http://cb?error=access_denied`, in which `state=`
does not occur. -/
theorem c8_state_passthrough_counterexample :
    (authorize true (some "code") (some "cid1") (some "http://cb") (some "") none none none
      (some "deny") 0 "X" dbReg).1 = AuthorizeResult.redirect "http://cb?error=access_denied" ∧
    ¬ List.IsInfix "state=".toList "http://cb?error=access_denied".toList := by
  constructor
  · rfl
  · decide

/-- C8 (amended): whenever the caller supplied a nonempty `state`, every
redirect produced by `/authorize` — error redirects and the success redirect —
carries `&state=<state>` verbatim. -/
theorem c8_state_passthrough (isPost : Bool)
    (rt cid ru cc ccm resource action : Option String) (s : String) (now : Nat)
    (fresh : String) (db : DB) (url : String) (hs : s ≠ "")
    (hred : (authorize isPost rt cid ru (some s) cc ccm resource action now fresh db).1 =
      AuthorizeResult.redirect url) :
    ∃ p, url = p ++ ("&state=" ++ s) := by
  have hsuf : stateSuffix (some s) = "&state=" ++ s := by
    simp [stateSuffix, strTruthy, hs, pyStr]
  unfold authorize at hred
  by_cases h1 : (rt != some "code") = true
  · rw [if_pos h1] at hred
    simp only [AuthorizeResult.redirect.injEq] at hred
    exact ⟨_, by rw [← hred, hsuf]⟩
  · rw [if_neg h1] at hred
    rcases hcl : db.clients.find? (fun c => some c.client_id == cid) with _ | client
    · rw [hcl] at hred
      simp only [AuthorizeResult.redirect.injEq] at hred
      exact ⟨_, by rw [← hred, hsuf]⟩
    · rw [hcl] at hred
      simp only [] at hred
      by_cases hm : (!isPost) = true
      · rw [if_pos hm] at hred
        exact absurd hred (by simp)
      · rw [if_neg hm] at hred
        by_cases hd : (action == some "deny") = true
        · rw [if_pos hd] at hred
          simp only [AuthorizeResult.redirect.injEq] at hred
          exact ⟨_, by rw [← hred, hsuf]⟩
        · rw [if_neg hd] at hred
          by_cases h2 : (strTruthy cc &&
              !((if strTruthy cc then (if strTruthy ccm then ccm else some "plain") else ccm) ==
                  some "S256" ||
                (if strTruthy cc then (if strTruthy ccm then ccm else some "plain") else ccm) ==
                  some "plain")) = true
          · rw [if_pos h2] at hred
            simp only [AuthorizeResult.redirect.injEq] at hred
            exact ⟨_, by rw [← hred, hsuf]⟩
          · rw [if_neg h2] at hred
            by_cases h3 : (strTruthy cc &&
                (if strTruthy cc then (if strTruthy ccm then ccm else some "plain") else ccm) ==
                  some "S256" &&
                ((cc.getD "").length < 43 || (cc.getD "").length > 128)) = true
            · rw [if_pos h3] at hred
              simp only [AuthorizeResult.redirect.injEq] at hred
              exact ⟨_, by rw [← hred, hsuf]⟩
            · rw [if_neg h3] at hred
              simp only [AuthorizeResult.redirect.injEq] at hred
              exact ⟨_, by rw [← hred, hsuf]⟩

/-- C8 (amended) witness: the deny redirect for a caller-supplied nonempty
state `xyz` ends in `&state=xyz`. -/
theorem c8_state_passthrough_witness :
    (authorize true (some "code") (some "cid1") (some "http://cb") (some "xyz") none none none
      (some "deny") 0 "X" dbReg).1 =
      AuthorizeResult.redirect "http://cb?error=access_denied&state=xyz" ∧
    ∃ p, "http://cb?error=access_denied&state=xyz" = p ++ ("&state=" ++ "xyz") :=
  ⟨rfl, c8_state_passthrough true (some "code") (some "cid1") (some "http://cb") none none none
    (some "deny") "xyz" 0 "X" dbReg "http://cb?error=access_denied&state=xyz"
    (by decide) rfl⟩

/-- C7 counterexample: a register request whose `grant_types` contains the
unsupported entry "implicit" does not always fail with
`invalid_client_metadata` — with an empty `redirect_uris` list it fails with
`invalid_redirect_uri` instead, since the redirect-uris check runs first. -/
theorem c7_registration_counterexample :
    (register_client none (some []) (some ["implicit"]) none none "n" "i" "s" 0 dbEmpty).1 =
      RegisterResult.err 400 "invalid_redirect_uri" "At least one redirect_uri is required" ∧
    "invalid_redirect_uri" ≠ "invalid_client_metadata" := by
  exact ⟨rfl, by decide⟩

/-- C7 (amended): an empty (effective) `redirect_uris` list always fails with
400 `invalid_redirect_uri`; a `grant_types` list containing an entry other
than "authorization_code" fails with 400 `invalid_client_metadata` whenever
`redirect_uris` is nonempty (the empty-redirect-uris check takes precedence);
no client row is created in either case. -/
theorem c7_registration_validation (client_name : Option String)
    (redirect_uris : Option (List String)) (grant_types : Option (List String))
    (response_types : Option (List String)) (scope : Option String)
    (fn fi fs : String) (now : Nat) (db : DB) :
    (redirect_uris.getD [] = [] →
      (register_client client_name redirect_uris grant_types response_types scope fn fi fs now
          db).1 =
        RegisterResult.err 400 "invalid_redirect_uri" "At least one redirect_uri is required" ∧
      (register_client client_name redirect_uris grant_types response_types scope fn fi fs now
          db).2 = db) ∧
    (redirect_uris.getD [] ≠ [] →
      (∃ g ∈ grant_types.getD ["authorization_code"], g ≠ "authorization_code") →
      (∃ g, g ≠ "authorization_code" ∧
        (register_client client_name redirect_uris grant_types response_types scope fn fi fs now
            db).1 =
          RegisterResult.err 400 "invalid_client_metadata" ("Unsupported grant_type: " ++ g)) ∧
      (register_client client_name redirect_uris grant_types response_types scope fn fi fs now
          db).2 = db) := by
  constructor
  · intro hempty
    unfold register_client
    rw [if_pos hempty]
    exact ⟨rfl, rfl⟩
  · intro hne ⟨g0, hg0mem, hg0ne⟩
    have hsome : ((grant_types.getD ["authorization_code"]).find?
        (fun g => !(["authorization_code"].contains g))).isSome := by
      rw [List.find?_isSome]
      exact ⟨g0, hg0mem, by simp [hg0ne]⟩
    rcases hfound : (grant_types.getD ["authorization_code"]).find?
        (fun g => !(["authorization_code"].contains g)) with _ | g
    · rw [hfound] at hsome
      exact absurd hsome (by simp)
    · have hgprop := List.find?_some hfound
      have hgne : g ≠ "authorization_code" := by
        simpa using hgprop
      unfold register_client
      rw [if_neg hne, hfound]
      exact ⟨⟨g, hgne, rfl⟩, rfl⟩

/-- C7 (amended) witness: empty redirect_uris is rejected with
`invalid_redirect_uri` and leaves the store unchanged; nonempty redirect_uris
with grant_types ["implicit"] is rejected with `invalid_client_metadata` and
leaves the store unchanged. -/
theorem c7_registration_validation_witness :
    (register_client none (some []) none none none "n" "i" "s" 0 dbEmpty).1 =
      RegisterResult.err 400 "invalid_redirect_uri" "At least one redirect_uri is required" ∧
    (register_client none (some []) none none none "n" "i" "s" 0 dbEmpty).2 = dbEmpty ∧
    (∃ g, g ≠ "authorization_code" ∧
      (register_client none (some ["http://cb"]) (some ["implicit"]) none none "n" "i" "s" 0
          dbEmpty).1 =
        RegisterResult.err 400 "invalid_client_metadata" ("Unsupported grant_type: " ++ g)) ∧
    (register_client none (some ["http://cb"]) (some ["implicit"]) none none "n" "i" "s" 0
        dbEmpty).2 = dbEmpty := by
  have h1 := (c7_registration_validation none (some []) none none none "n" "i" "s" 0 dbEmpty).1
    (by decide)
  have h2 := (c7_registration_validation none (some ["http://cb"]) (some ["implicit"]) none none
    "n" "i" "s" 0 dbEmpty).2 (by decide) ⟨"implicit", by decide, by decide⟩
  exact ⟨h1.1, h1.2, h2.1, h2.2⟩

/-- C5 counterexample: the 401 responses of GET /resource do not carry a
`WWW-Authenticate` header of the claimed shape
`Bearer realm="mcp", resource_metadata="<metadata-url>"`: the missing-header
response names the parameter `resource_server_metadata_url`, and the
unknown-token response carries no metadata URL at all. -/
theorem c5_www_authenticate_counterexample :
    protected_resource none 0 "http://127.0.0.1:8000" dbEmpty =
      ResourceResult.unauthorized "Authorization required"
        "Bearer realm=\"mcp\", resource_server_metadata_url=\"http://127.0.0.1:8000/.well-known/oauth-protected-resource\"" ∧
    "Bearer realm=\"mcp\", resource_server_metadata_url=\"http://127.0.0.1:8000/.well-known/oauth-protected-resource\"" ≠
      "Bearer realm=\"mcp\", resource_metadata=\"http://127.0.0.1:8000/.well-known/oauth-protected-resource\"" ∧
    protected_resource (some "Bearer unknown") 0 "http://127.0.0.1:8000" dbEmpty =
      ResourceResult.unauthorized "Invalid or expired token" "Bearer realm=\"mcp\"" ∧
    ¬ List.IsInfix "resource_metadata".toList "Bearer realm=\"mcp\"".toList := by
  refine ⟨rfl, by decide, rfl, by decide⟩

/-- C5 (amended): a GET /resource request with a missing (or empty)
`Authorization` header is answered 401 with
`WWW-Authenticate: Bearer realm="mcp", resource_server_metadata_url="<metadata-url>"`;
a request whose header is not "Bearer "-prefixed, and one whose bearer token
is unknown or expired, are answered 401 with `WWW-Authenticate: Bearer
realm="mcp"` carrying no metadata URL. -/
theorem c5_www_authenticate (auth : Option String) (now : Nat) (baseUrl : String) (db : DB) :
    (strTruthy auth = false →
      protected_resource auth now baseUrl db =
        ResourceResult.unauthorized "Authorization required"
          ("Bearer realm=\"mcp\", resource_server_metadata_url=\"" ++ baseUrl ++
            "/.well-known/oauth-protected-resource\"")) ∧
    (strTruthy auth = true → pyStartsWith (pyStr auth) "Bearer " = false →
      protected_resource auth now baseUrl db =
        ResourceResult.unauthorized "Invalid authorization format" "Bearer realm=\"mcp\"") ∧
    (strTruthy auth = true → pyStartsWith (pyStr auth) "Bearer " = true →
      db.accessTokens.find?
        (fun tk => tk.token == pyDrop (pyStr auth) 7 && decide (now < tk.expiresAt)) = none →
      protected_resource auth now baseUrl db =
        ResourceResult.unauthorized "Invalid or expired token" "Bearer realm=\"mcp\"") := by
  refine ⟨?_, ?_, ?_⟩
  · intro h
    unfold protected_resource
    rw [if_pos (by simp [h])]
  · intro h1 h2
    unfold protected_resource
    rw [if_neg (by simp [h1]), if_pos (by simp [h2])]
  · intro h1 h2 h3
    unfold protected_resource
    rw [if_neg (by simp [h1]), if_neg (by simp [h2]), h3]

/-- C5 (amended) witness: the three 401 shapes at concrete requests. -/
theorem c5_www_authenticate_witness :
    protected_resource none 0 "http://b" dbEmpty =
      ResourceResult.unauthorized "Authorization required"
        "Bearer realm=\"mcp\", resource_server_metadata_url=\"http://b/.well-known/oauth-protected-resource\"" ∧
    protected_resource (some "Basic xyz") 0 "http://b" dbEmpty =
      ResourceResult.unauthorized "Invalid authorization format" "Bearer realm=\"mcp\"" ∧
    protected_resource (some "Bearer nope") 0 "http://b" dbEmpty =
      ResourceResult.unauthorized "Invalid or expired token" "Bearer realm=\"mcp\"" := by
  refine ⟨?_, ?_, ?_⟩
  · exact ((c5_www_authenticate none 0 "http://b" dbEmpty).1 (by decide)).trans (by rfl)
  · exact (c5_www_authenticate (some "Basic xyz") 0 "http://b" dbEmpty).2.1 (by decide) (by decide)
  · exact (c5_www_authenticate (some "Bearer nope") 0 "http://b" dbEmpty).2.2 (by decide)
      (by decide) (by decide)

/-- C2: the store's find-unused-and-mark-used sequence is NOT atomic.  The
handler is a read (`tokenExchange`'s `found` argument is the result of the
SELECT, which the sqlite3 driver runs outside the write transaction) followed
by a write (`used = True; commit()` sets the flag unconditionally by primary
key).  Interleaving two requests for the same code as read A, read B, write A,
write B — both SELECTs observing the snapshot before either write — makes both
redemptions succeed: both receive fresh access tokens and the final store
holds two token rows, contradicting "exactly one success and one
invalid_grant".  (Sequential composition, by contrast, is single-use: see the
C1 theorem.) -/
theorem c2_read_then_write_double_spend :
    (tokenExchange "http://cb" "cl" none 0 "tokenA"
      (findValidAuthCode dbOneCode.authCodes "codeX" 0) dbOneCode).1 =
      TokenResult.ok "tokenA" "bearer" none ∧
    (tokenExchange "http://cb" "cl" none 0 "tokenB"
      (findValidAuthCode dbOneCode.authCodes "codeX" 0)
      (tokenExchange "http://cb" "cl" none 0 "tokenA"
        (findValidAuthCode dbOneCode.authCodes "codeX" 0) dbOneCode).2).1 =
      TokenResult.ok "tokenB" "bearer" none ∧
    (tokenExchange "http://cb" "cl" none 0 "tokenB"
      (findValidAuthCode dbOneCode.authCodes "codeX" 0)
      (tokenExchange "http://cb" "cl" none 0 "tokenA"
        (findValidAuthCode dbOneCode.authCodes "codeX" 0) dbOneCode).2).2.accessTokens.length =
      2 := by
  refine ⟨rfl, rfl, rfl⟩

/-!
Injectivity of the unpadded URL-safe base64 encoding on equal-length byte
lists, and boundedness facts about SHA-256, used to settle the PKCE claim.
-/

/-- The alphabet lookup is inverted by `charToSix` on all 64 six-bit values. -/
theorem charToSix_sixToChar : ∀ n, n < 64 → charToSix (sixToChar n) = n := by decide

/-- The alphabet lookup is injective on six-bit values. -/
theorem sixToChar_inj (m n : Nat) (hm : m < 64) (hn : n < 64)
    (h : sixToChar m = sixToChar n) : m = n := by
  have := charToSix_sixToChar m hm
  rw [h, charToSix_sixToChar n hn] at this
  exact this.symm

/-- Six-bit groups of a byte list are below 64. -/
theorem b64Sextets_lt : ∀ (xs : List Nat), (∀ b ∈ xs, b < 256) →
    ∀ x ∈ b64Sextets xs, x < 64 := by
  intro xs
  induction xs using b64Sextets.induct with
  | case1 =>
    intro _ x hx
    simp [b64Sextets] at hx
  | case2 a =>
    intro hb x hx
    have ha := hb a (by simp)
    simp [b64Sextets] at hx
    rcases hx with h | h <;> omega
  | case3 a b =>
    intro hb x hx
    have ha := hb a (by simp)
    have hbb := hb b (by simp)
    simp [b64Sextets] at hx
    rcases hx with h | h | h <;> omega
  | case4 a b c rest ih =>
    intro hb x hx
    have ha := hb a (by simp)
    have hbb := hb b (by simp)
    have hc := hb c (by simp)
    simp only [b64Sextets, List.mem_cons] at hx
    rcases hx with h | h | h | h | h
    · omega
    · omega
    · omega
    · omega
    · exact ih (fun y hy => hb y (by simp [hy])) x h

/-- Mapping the alphabet over six-bit lists is injective. -/
theorem map_sixToChar_inj : ∀ (s t : List Nat), (∀ x ∈ s, x < 64) → (∀ x ∈ t, x < 64) →
    s.map sixToChar = t.map sixToChar → s = t := by
  intro s
  induction s with
  | nil =>
    intro t _ _ h
    rcases t with _ | ⟨y, t⟩
    · rfl
    · simp at h
  | cons x s ih =>
    intro t hs ht h
    rcases t with _ | ⟨y, t⟩
    · simp at h
    · simp only [List.map_cons, List.cons.injEq] at h
      have hx := hs x (by simp)
      have hy := ht y (by simp)
      rw [sixToChar_inj x y hx hy h.1,
        ih t (fun z hz => hs z (by simp [hz])) (fun z hz => ht z (by simp [hz])) h.2]

/-- The six-bit grouping is injective on equal-length byte lists. -/
theorem b64Sextets_inj : ∀ (xs ys : List Nat), xs.length = ys.length →
    (∀ b ∈ xs, b < 256) → (∀ b ∈ ys, b < 256) →
    b64Sextets xs = b64Sextets ys → xs = ys := by
  intro xs
  induction xs using b64Sextets.induct with
  | case1 =>
    intro ys hlen _ _ _
    rcases ys with _ | ⟨y, ys⟩
    · rfl
    · simp at hlen
  | case2 a =>
    intro ys hlen hxb hyb henc
    rcases ys with _ | ⟨y1, _ | ⟨y2, ys⟩⟩
    · simp at hlen
    · have ha := hxb a (by simp)
      have hy1 := hyb y1 (by simp)
      simp only [b64Sextets, List.cons.injEq] at henc
      have : a = y1 := by omega
      rw [this]
    · simp at hlen
  | case3 a b =>
    intro ys hlen hxb hyb henc
    rcases ys with _ | ⟨y1, _ | ⟨y2, _ | ⟨y3, ys⟩⟩⟩
    · simp at hlen
    · simp at hlen
    · have ha := hxb a (by simp)
      have hb2 := hxb b (by simp)
      have hy1 := hyb y1 (by simp)
      have hy2 := hyb y2 (by simp)
      simp only [b64Sextets, List.cons.injEq] at henc
      have h1 : a = y1 := by omega
      have h2 : b = y2 := by omega
      rw [h1, h2]
    · simp at hlen
  | case4 a b c rest ih =>
    intro ys hlen hxb hyb henc
    rcases ys with _ | ⟨y1, _ | ⟨y2, _ | ⟨y3, ys⟩⟩⟩
    · simp at hlen
    · simp at hlen
    · simp at hlen
    · have ha := hxb a (by simp)
      have hb2 := hxb b (by simp)
      have hc := hxb c (by simp)
      have hy1 := hyb y1 (by simp)
      have hy2 := hyb y2 (by simp)
      have hy3 := hyb y3 (by simp)
      simp only [b64Sextets, List.cons.injEq] at henc
      have h1 : a = y1 := by omega
      have h2 : b = y2 := by omega
      have h3 : c = y3 := by omega
      have hlen2 : rest.length = ys.length := by
        simp at hlen
        omega
      rw [h1, h2, h3, ih ys hlen2 (fun z hz => hxb z (by simp [hz]))
        (fun z hz => hyb z (by simp [hz])) henc.2.2.2.2]

/-- The unpadded URL-safe base64 encoding is injective on equal-length byte
lists. -/
theorem b64urlNoPad_inj (xs ys : List Nat) (hlen : xs.length = ys.length)
    (hxb : ∀ b ∈ xs, b < 256) (hyb : ∀ b ∈ ys, b < 256)
    (h : b64urlNoPad xs = b64urlNoPad ys) : xs = ys := by
  unfold b64urlNoPad at h
  have hmap : (b64Sextets xs).map sixToChar = (b64Sextets ys).map sixToChar := by
    injection h
  exact b64Sextets_inj xs ys hlen hxb hyb
    (map_sixToChar_inj (b64Sextets xs) (b64Sextets ys)
      (b64Sextets_lt xs hxb) (b64Sextets_lt ys hyb) hmap)

/-- A SHA-256 digest holds 32 bytes. -/
theorem sha256_length (msg : List Nat) : (sha256 msg).length = 32 := by
  simp [sha256, wordBytes]

/-- All entries of a SHA-256 digest are bytes. -/
theorem sha256_bytes_lt (msg : List Nat) : ∀ b ∈ sha256 msg, b < 256 := by
  intro b hb
  simp [sha256, wordBytes] at hb
  omega

/-- Equal S256 challenges come from equal SHA-256 digests. -/
theorem s256_challenge_inj (v v2 : String)
    (h : s256_challenge v = s256_challenge v2) :
    sha256 (strBytes v) = sha256 (strBytes v2) := by
  exact b64urlNoPad_inj _ _ (by rw [sha256_length, sha256_length])
    (sha256_bytes_lt _) (sha256_bytes_lt _) h

/-- All eight fields of an `Hs` state are 32-bit words. -/
def hsBounded (s : Hs) : Prop :=
  s.a < 4294967296 ∧ s.b < 4294967296 ∧ s.c < 4294967296 ∧ s.d < 4294967296 ∧
  s.e < 4294967296 ∧ s.f < 4294967296 ∧ s.g < 4294967296 ∧ s.h < 4294967296

/-- The compression function always outputs 32-bit words. -/
theorem compress_bounds (s : Hs) (block : List Nat) : hsBounded (compress s block) := by
  refine ⟨?_, ?_, ?_, ?_, ?_, ?_, ?_, ?_⟩ <;> simp [compress, hsBounded, w32] <;> omega

/-- Folding the compression function preserves word boundedness. -/
theorem foldl_compress_bounded : ∀ (blocks : List (List Nat)) (s : Hs), hsBounded s →
    hsBounded (blocks.foldl compress s) := by
  intro blocks
  induction blocks with
  | nil => intro s hs; exact hs
  | cons b bs ih => intro s _; exact ih (compress s b) (compress_bounds s b)

/-- The final hash words of any message are 32-bit words. -/
theorem sha256Words_bounded (msg : List Nat) : hsBounded (sha256Words msg) :=
  foldl_compress_bounded (chunks64 (shaPad msg)) shaIV (by refine ⟨?_,?_,?_,?_,?_,?_,?_,?_⟩ <;> norm_num [shaIV])

/-- Two `Hs` states with equal fields are equal. -/
theorem hs_eq_of_fields (s t : Hs) (h1 : s.a = t.a) (h2 : s.b = t.b) (h3 : s.c = t.c)
    (h4 : s.d = t.d) (h5 : s.e = t.e) (h6 : s.f = t.f) (h7 : s.g = t.g) (h8 : s.h = t.h) :
    s = t := by
  cases s
  cases t
  simp_all

/-- The SHA-256 hash words of a verifier, packaged in the finite type of
8-tuples of 32-bit words. -/
def digestFin (v : String) :
    Fin 4294967296 × Fin 4294967296 × Fin 4294967296 × Fin 4294967296 ×
    Fin 4294967296 × Fin 4294967296 × Fin 4294967296 × Fin 4294967296 :=
  (⟨(sha256Words (strBytes v)).a, (sha256Words_bounded (strBytes v)).1⟩,
   ⟨(sha256Words (strBytes v)).b, (sha256Words_bounded (strBytes v)).2.1⟩,
   ⟨(sha256Words (strBytes v)).c, (sha256Words_bounded (strBytes v)).2.2.1⟩,
   ⟨(sha256Words (strBytes v)).d, (sha256Words_bounded (strBytes v)).2.2.2.1⟩,
   ⟨(sha256Words (strBytes v)).e, (sha256Words_bounded (strBytes v)).2.2.2.2.1⟩,
   ⟨(sha256Words (strBytes v)).f, (sha256Words_bounded (strBytes v)).2.2.2.2.2.1⟩,
   ⟨(sha256Words (strBytes v)).g, (sha256Words_bounded (strBytes v)).2.2.2.2.2.2.1⟩,
   ⟨(sha256Words (strBytes v)).h, (sha256Words_bounded (strBytes v)).2.2.2.2.2.2.2⟩)

/-- C3 counterexample: the clause "for every verifier v2 distinct from v,
validate(v2, base64url_nopad(sha256(v)), S256) = false" is false: SHA-256 maps
the infinitely many verifier strings into finitely many 32-byte digests, so
two distinct verifiers share a digest and hence validate against each other's
challenge. -/
theorem c3_pkce_s256_distinctness_refuted :
    ¬ ∀ (v v2 : String), v2 ≠ v →
      validate_pkce v2 (s256_challenge v) (some "S256") = false := by
  intro h
  obtain ⟨x, y, hxy, hf⟩ := Finite.exists_ne_map_eq_of_infinite digestFin
  have hw : sha256Words (strBytes x) = sha256Words (strBytes y) := by
    refine hs_eq_of_fields _ _ ?_ ?_ ?_ ?_ ?_ ?_ ?_ ?_
    · exact congrArg (fun p => p.1.val) hf
    · exact congrArg (fun p => p.2.1.val) hf
    · exact congrArg (fun p => p.2.2.1.val) hf
    · exact congrArg (fun p => p.2.2.2.1.val) hf
    · exact congrArg (fun p => p.2.2.2.2.1.val) hf
    · exact congrArg (fun p => p.2.2.2.2.2.1.val) hf
    · exact congrArg (fun p => p.2.2.2.2.2.2.1.val) hf
    · exact congrArg (fun p => p.2.2.2.2.2.2.2.val) hf
  have hch : s256_challenge x = s256_challenge y := by
    unfold s256_challenge sha256
    rw [hw]
  have hx := h y x hxy
  rw [validate_pkce] at hx
  rw [if_neg (by decide), if_pos (by decide)] at hx
  rw [hch] at hx
  simp at hx

/-- C3 (amended): the PKCE validator accepts every verifier against its own
S256 challenge and against itself under plain; it rejects, under S256, every
verifier whose SHA-256 digest differs from that of the challenge's verifier;
and it rejects every method outside S256/plain on all inputs. -/
theorem c3_pkce_validator :
    (∀ v : String, validate_pkce v (s256_challenge v) (some "S256") = true) ∧
    (∀ v : String, validate_pkce v v (some "plain") = true) ∧
    (∀ v v2 : String, sha256 (strBytes v2) ≠ sha256 (strBytes v) →
      validate_pkce v2 (s256_challenge v) (some "S256") = false) ∧
    (∀ (m : Option String) (v c : String), m ≠ some "S256" → m ≠ some "plain" →
      validate_pkce v c m = false) := by
  refine ⟨?_, ?_, ?_, ?_⟩
  · intro v
    simp [validate_pkce]
  · intro v
    simp [validate_pkce]
  · intro v v2 hne
    rw [validate_pkce]
    rw [if_neg (by decide), if_pos (by decide)]
    rw [beq_eq_false_iff_ne]
    intro heq
    exact hne (s256_challenge_inj v2 v heq)
  · intro m v c h1 h2
    rw [validate_pkce]
    rw [if_neg (by simp [h2]), if_neg (by simp [h1])]

/-- C3 (amended) witness: concrete checks — "abc" validates against its own
S256 challenge and under plain; "abd" has a different digest from "abc" and is
rejected against "abc"'s challenge; the method "bogus" is rejected. -/
theorem c3_pkce_validator_witness :
    validate_pkce "abc" (s256_challenge "abc") (some "S256") = true ∧
    validate_pkce "abc" "abc" (some "plain") = true ∧
    sha256 (strBytes "abd") ≠ sha256 (strBytes "abc") ∧
    validate_pkce "abd" (s256_challenge "abc") (some "S256") = false ∧
    validate_pkce "abc" "whatever" (some "bogus") = false :=
  ⟨c3_pkce_validator.1 "abc", c3_pkce_validator.2.1 "abc", by decide,
   c3_pkce_validator.2.2.1 "abc" "abd" (by decide),
   c3_pkce_validator.2.2.2 (some "bogus") "abc" "whatever" (by decide) (by decide)⟩

end MCPAuth
